import Mathlib

/-!
Shallow embedding of `src/github.com/getlantern/flashlight/config/config.go`
(package `config` of the Lantern flashlight client), together with theorems
settling the specified properties of its configuration bootstrap / merge /
polling core.

Conventions of the embedding:
* Go slices and maps are modelled as Lean `List`s (a `nil` slice/map and an
  empty one are not distinguished; every place `config.go` branches on
  `x == nil || len(x) == 0` this conflation is harmless, and it is noted where
  it matters).
* Go maps keyed by strings are modelled as association lists
  `List (String × _)`.
* A nil Go pointer is modelled as `Option.none`; dereferencing `none` is made
  explicit in the functions that the Go code would crash in (see
  `MergeResult.panicNil`).
* Raw byte payloads are abstracted by the `Payload` type: the YAML codec
  (`github.com/getlantern/yaml`, an external collaborator not under `src/`) is
  modelled from the spec, which fixes its interface as "deserializes a byte
  payload onto an existing typed structure, overwriting only fields present in
  the payload".  A `Payload` is therefore either `malformed` or the set of
  fields present in the document.
-/

/-- `fronted.Masquerade` (package `github.com/getlantern/fronted`, external).
Modelled from the spec: a masquerade is a front-domain/IP pair. -/
structure Masquerade where
  domain : String
  ipAddress : String
deriving DecidableEq

/-- `client.FrontedServerInfo` (package `flashlight/client`, not under `src/`).
Modelled from the spec: a fronted-server entry carries a host, port, the name
of the masquerade set it uses, and the tuning fields that `applyClientDefaults`
fills (quality-of-service weight `qos`, traffic `weight`, `redialAttempts`). -/
structure FrontedServerInfo where
  host : String
  port : Nat
  poolSize : Nat
  masqueradeSet : String
  maxMasquerades : Nat
  qos : Int
  weight : Int
  redialAttempts : Int
  trusted : Bool
deriving DecidableEq

/-- `client.ChainedServerInfo` (package `flashlight/client`, not under `src/`).
Modelled from the spec: address plus optional auth token. -/
structure ChainedServerInfo where
  addr : String
  authToken : String
deriving DecidableEq

/-- `config.CA`: a certificate authority (CommonName + PEM-encoded cert),
from `config.go`. -/
structure CA where
  commonName : String
  cert : String
deriving DecidableEq

/-- `statreporter.Config` (external package). Only the field `config.go`
touches (`StatshubAddr`) is modelled. -/
structure StatsConfig where
  statshubAddr : String
deriving DecidableEq

/-- `server.ServerConfig` (external package); opaque to the claims, modelled
with a single placeholder field. -/
structure ServerConfig where
  addr : String
deriving DecidableEq

/-- `proxiedsites.Delta` (external package): user-local additions/deletions. -/
structure ProxiedSitesDelta where
  additions : List String
  deletions : List String
deriving DecidableEq

/-- `proxiedsites.Config` (external package): the proxied-sites policy, with
the cloud-provided domain list that `updateFrom` deduplicates and sorts. -/
structure ProxiedSitesConfig where
  delta : Option ProxiedSitesDelta
  cloud : List String
deriving DecidableEq

/-- `client.ClientConfig` (package `flashlight/client`, not under `src/`).
Modelled from the spec: the nested client sub-configuration holding the
fronted-server list, the chained-server mapping keyed by identifier, and the
masquerade-set mapping. -/
structure ClientConfig where
  minQOS : Int
  frontedServers : List FrontedServerInfo
  chainedServers : List (String × ChainedServerInfo)
  masqueradeSets : List (String × List Masquerade)
deriving DecidableEq

/-- `config.Config` from `config.go`: the root configuration aggregate.
Pointer-typed fields (`AutoReport`, `AutoLaunch`, `Stats`, `Server`, `Client`,
`ProxiedSites`) are `Option`s. -/
structure Config where
  version : Int
  cloudConfig : String
  cloudConfigCA : String
  addr : String
  role : String
  instanceId : String
  cpuProfile : String
  memProfile : String
  uiAddr : String
  autoReport : Option Bool
  autoLaunch : Option Bool
  stats : Option StatsConfig
  server : Option ServerConfig
  client : Option ClientConfig
  proxiedSites : Option ProxiedSitesConfig
  trustedCAs : List CA
deriving DecidableEq

/-! ## The YAML payload model

Modelled from the spec: the serialization codec is consumed as an interface
that "deserializes a byte payload onto an existing typed structure,
overwriting only fields present in the payload".  A well-formed payload is
therefore the collection of fields present in the YAML document, each
optional; a malformed payload carries the codec's error message.  For nested
sub-structures that no claim inspects field-by-field (`stats`, `server`,
`delta`) presence of the sub-document is modelled as replacing the whole
sub-structure. -/

/-- Fields of the client sub-document that may be present in an update. -/
structure ClientPayload where
  minQOS : Option Int
  frontedServers : Option (List FrontedServerInfo)
  chainedServers : Option (List (String × ChainedServerInfo))
  masqueradeSets : Option (List (String × List Masquerade))
deriving DecidableEq

/-- Fields of the proxied-sites sub-document that may be present in an
update. -/
structure ProxiedSitesPayload where
  delta : Option ProxiedSitesDelta
  cloud : Option (List String)
deriving DecidableEq

/-- Top-level fields that may be present in an update document. -/
structure PayloadFields where
  version : Option Int
  cloudConfig : Option String
  cloudConfigCA : Option String
  addr : Option String
  role : Option String
  instanceId : Option String
  cpuProfile : Option String
  memProfile : Option String
  uiAddr : Option String
  autoReport : Option Bool
  autoLaunch : Option Bool
  stats : Option StatsConfig
  server : Option ServerConfig
  client : Option ClientPayload
  proxiedSites : Option ProxiedSitesPayload
  trustedCAs : Option (List CA)
deriving DecidableEq

/-- A raw byte payload as seen through the codec: either malformed (the codec
fails with a message) or the set of fields present in the document. -/
inductive Payload where
  | malformed (msg : String)
  | wellFormed (fields : PayloadFields)
deriving DecidableEq

/-- The zero `client.ClientConfig` value the codec allocates when the update
document has a client section but the target's `Client` pointer is nil. -/
def emptyClientConfig : ClientConfig :=
  { minQOS := 0, frontedServers := [], chainedServers := [], masqueradeSets := [] }

/-- The zero `proxiedsites.Config` value the codec allocates when the update
document has a proxied-sites section but the target's pointer is nil. -/
def emptyProxiedSites : ProxiedSitesConfig :=
  { delta := none, cloud := [] }

/-- Modelled from the spec: deserializing the client sub-document onto an
existing `ClientConfig`, overwriting only the fields present.  (In
`updateFrom` the target's three collections have always just been cleared, so
map-merge and map-replace coincide.) -/
def unmarshalClient (p : ClientPayload) (c : ClientConfig) : ClientConfig :=
  { minQOS := p.minQOS.getD c.minQOS
    frontedServers := p.frontedServers.getD c.frontedServers
    chainedServers := p.chainedServers.getD c.chainedServers
    masqueradeSets := p.masqueradeSets.getD c.masqueradeSets }

/-- Modelled from the spec: deserializing the proxied-sites sub-document onto
an existing `proxiedsites.Config`, overwriting only the fields present. -/
def unmarshalProxiedSites (p : ProxiedSitesPayload) (c : ProxiedSitesConfig) :
    ProxiedSitesConfig :=
  { delta := match p.delta with
      | some d => some d
      | none => c.delta
    cloud := p.cloud.getD c.cloud }

/-- Modelled from the spec: the effect of deserializing a well-formed
document with fields `f` onto the structure `cfg`, overwriting only the
fields present. -/
def yamlUnmarshalFields (f : PayloadFields) (cfg : Config) : Config :=
    { version := f.version.getD cfg.version
      cloudConfig := f.cloudConfig.getD cfg.cloudConfig
      cloudConfigCA := f.cloudConfigCA.getD cfg.cloudConfigCA
      addr := f.addr.getD cfg.addr
      role := f.role.getD cfg.role
      instanceId := f.instanceId.getD cfg.instanceId
      cpuProfile := f.cpuProfile.getD cfg.cpuProfile
      memProfile := f.memProfile.getD cfg.memProfile
      uiAddr := f.uiAddr.getD cfg.uiAddr
      autoReport := match f.autoReport with
        | some b => some b
        | none => cfg.autoReport
      autoLaunch := match f.autoLaunch with
        | some b => some b
        | none => cfg.autoLaunch
      stats := match f.stats with
        | some s => some s
        | none => cfg.stats
      server := match f.server with
        | some s => some s
        | none => cfg.server
      client := match f.client with
        | some cp => some (unmarshalClient cp (cfg.client.getD emptyClientConfig))
        | none => cfg.client
      proxiedSites := match f.proxiedSites with
        | some pp => some (unmarshalProxiedSites pp (cfg.proxiedSites.getD emptyProxiedSites))
        | none => cfg.proxiedSites
      trustedCAs := f.trustedCAs.getD cfg.trustedCAs }

/-- Modelled from the spec: `yaml.Unmarshal(updateBytes, cfg)` — the external
codec "deserializes a byte payload onto an existing typed structure,
overwriting only fields present in the payload"; on a malformed payload it
fails without producing a value. -/
def yamlUnmarshal (p : Payload) (cfg : Config) : Except String Config :=
  match p with
  | Payload.malformed msg => Except.error msg
  | Payload.wellFormed f => Except.ok (yamlUnmarshalFields f cfg)

/-! ## The merge (`updateFrom`, config.go lines 619-653) -/

/-- Outcome of `(*Config).updateFrom`.  The Go method mutates its receiver
and returns an `error`; the embedding returns the receiver's final state
together with the error.  `panicNil` marks the executions in which the Go
code dereferences a nil pointer and crashes (`updated.Client` at line 624,
`updated.ProxiedSites` at line 641). -/
inductive MergeResult where
  | panicNil
  | failed (msg : String) (final : Config)
  | ok (final : Config)
deriving DecidableEq

/-- The lexicographic order `sort.Strings` uses, stated on the character
lists underlying the strings (Go compares strings byte-wise, which for the
domain strings at hand coincides with the character-wise lexicographic
order; it is propositionally the same order as `String.le`, see
`String.le_iff_toList_le`). -/
def stringLe (a b : String) : Prop := a.data ≤ b.data

instance : DecidableRel stringLe := fun a b => inferInstanceAs (Decidable (a.data ≤ b.data))

instance : IsTotal String stringLe := ⟨fun a b => le_total a.data b.data⟩

instance : IsTrans String stringLe := ⟨fun _ _ _ h1 h2 => le_trans h1 h2⟩

/-- Deduplication and sort of the cloud proxied-sites list (config.go lines
640-651): the Go code inserts every domain into a `map[string]bool`, collects
the keys, and sorts with `sort.Strings`.  Collecting map keys yields the
distinct domains in unspecified order, and sorting by the (total,
antisymmetric) lexicographic string order makes the result independent of
that order, so the whole block is modelled as dedup-then-sort. -/
def dedupCloud (l : List String) : List String :=
  List.insertionSort stringLe l.dedup

/-- `(*Config).updateFrom(updateBytes []byte) error` (config.go lines
622-653): clears the fronted-server list, chained-server map, masquerade-set
map and trusted-CA list, deserializes the payload onto the cleared copy,
restores the four collections on failure, and on success deduplicates and
sorts the non-empty cloud proxied-sites list. -/
def Config.updateFrom (updated : Config) (updateBytes : Payload) : MergeResult :=
  match updated.client with
  | none => MergeResult.panicNil
  | some cl =>
    let clearedClient : ClientConfig :=
      { cl with frontedServers := [], chainedServers := [], masqueradeSets := [] }
    let cleared : Config :=
      { updated with client := some clearedClient, trustedCAs := [] }
    match yamlUnmarshal updateBytes cleared with
    | Except.error msg =>
      let restored : Config :=
        { cleared with
          client := some
            { clearedClient with
              frontedServers := cl.frontedServers
              chainedServers := cl.chainedServers
              masqueradeSets := cl.masqueradeSets }
          trustedCAs := updated.trustedCAs }
      MergeResult.failed ("Unable to unmarshal YAML for update: " ++ msg) restored
    | Except.ok merged =>
      match merged.proxiedSites with
      | none => MergeResult.panicNil
      | some ps =>
        if 0 < ps.cloud.length then
          MergeResult.ok { merged with proxiedSites := some { ps with cloud := dedupCloud ps.cloud } }
        else
          MergeResult.ok merged

/-! ## The conditional fetcher (config.go lines 566-617) -/

/-- Header-name constant `etag = "X-Lantern-Etag"` (config.go line 38). -/
def etagHeaderName : String := "X-Lantern-Etag"

/-- Header-name constant `ifNoneMatch = "X-Lantern-If-None-Match"` (line 39). -/
def ifNoneMatchHeaderName : String := "X-Lantern-If-None-Match"

/-- The process-wide `lastCloudConfigETag map[string]string` (config.go line
49), threaded explicitly through the fetch functions. -/
abbrev ETagCache := List (String × String)

/-- Go map read `lastCloudConfigETag[url]`: the empty string for a missing
key. -/
def cacheGet (c : ETagCache) (url : String) : String :=
  match c with
  | [] => ""
  | kv :: rest => if kv.1 = url then kv.2 else cacheGet rest url

/-- Go map write `lastCloudConfigETag[url] = v`. -/
def cacheSet (c : ETagCache) (url v : String) : ETagCache :=
  match c with
  | [] => [(url, v)]
  | kv :: rest => if kv.1 = url then (url, v) :: rest else kv :: cacheSet rest url v

/-- An `*http.Response` as far as `readConfigResponse` inspects it: the
status code, the `X-Lantern-Etag` header value (`""` when absent, as with
Go's `Header.Get`), and the body.  The body is the outcome of gzip
decompression (an external step): `none` models a body on which
`gzip.NewReader`/`ReadAll` fails, `some p` a body whose decompressed bytes
are abstracted by the payload `p`. -/
structure Response where
  statusCode : Nat
  etagHeader : String
  body : Option Payload
deriving DecidableEq

/-- An `*http.Request` as `fetchCloudConfig` builds it (config.go lines
568-587).  A header set to `""` models an absent header. -/
structure Request where
  url : String
  ifNoneMatchHeader : String
  authTokenHeader : String
  cacheControl : String
  close : Bool
deriving DecidableEq

/-- `readConfigResponse(url, resp)` (config.go lines 602-617): a 304 returns
the absent body with no error; any other non-200 status is an error; on a 200
the etag cache for `url` is updated to the response's `X-Lantern-Etag` header
and the body is decompressed — note the cache write happens before the gzip
reader is opened, so a decompression failure still leaves the cache updated.
Returns the resulting cache alongside the Go return value. -/
def readConfigResponse (cache : ETagCache) (url : String) (resp : Response) :
    ETagCache × Except String (Option Payload) :=
  if resp.statusCode = 304 then
    (cache, Except.ok none)
  else if resp.statusCode ≠ 200 then
    (cache, Except.error ("Unexpected response status: " ++ toString resp.statusCode))
  else
    let cache2 := cacheSet cache url resp.etagHeader
    match resp.body with
    | none => (cache2, Except.error "Unable to open gzip reader")
    | some p => (cache2, Except.ok (some p))

/-- `fetchCloudConfig(client, url, authToken)` (config.go lines 566-600):
builds the conditional GET request (attaching the cached validation token,
the auth token if non-empty, a no-cache directive, and `Close = true`),
executes it through the supplied transport, and reads the response.  The
`*http.Client` is abstracted as `transport : Request → Except String
Response`; `Except.error` models a transport failure of `client.Do`. -/
def fetchCloudConfig (cache : ETagCache) (url authToken : String)
    (transport : Request → Except String Response) :
    ETagCache × Except String (Option Payload) :=
  let req : Request :=
    { url := url
      ifNoneMatchHeader := cacheGet cache url
      authTokenHeader := authToken
      cacheControl := "no-cache"
      close := true }
  match transport req with
  | Except.error e =>
    (cache, Except.error ("Unable to fetch cloud config at " ++ url ++ ": " ++ e))
  | Except.ok resp => readConfigResponse cache url resp

/-! ## The polling scheduler (config.go lines 280-313 and 543-545) -/

/-- `CloudConfigPollInterval = 1 * time.Minute` (config.go line 36), in
nanoseconds. -/
def CloudConfigPollInterval : Nat := 60 * 1000000000

/-- `(Config).cloudPollSleepTime()` (config.go lines 543-545):
`interval/2 + rand.Int63n(interval)` in nanoseconds.  The pseudo-random
draw `rand.Int63n(CloudConfigPollInterval)` is modelled as the explicit
argument `randDraw`; the Go standard library guarantees the draw lies in
`[0, CloudConfigPollInterval)`. -/
def cloudPollSleepTime (randDraw : Nat) : Nat :=
  CloudConfigPollInterval / 2 + randDraw

/-- Result of one `pollWithHttpClient` invocation: the mutation to hand to
the external manager (a state transformer on the configuration it is applied
to), the computed wait, the error if any, and the resulting etag cache. -/
structure PollResult where
  mutate : Config → MergeResult
  waitTime : Nat
  pollError : Option String
  cache : ETagCache

/-- `pollWithHttpClient(currentCfg, client)` (config.go lines 280-313): does
nothing when the configuration has no cloud-config URL; otherwise performs
one conditional fetch with no auth token; an unchanged (nil) body or a fetch
error leaves the do-nothing mutation (which returns its argument untouched
with no error); a fetched body yields a mutation that merges the body into
whatever configuration it is applied to at mutation time. -/
def pollWithHttpClient (cache : ETagCache) (currentCfg : Config) (randDraw : Nat)
    (transport : Request → Except String Response) : PollResult :=
  let mutate0 : Config → MergeResult := fun ycfg => MergeResult.ok ycfg
  let waitTime := cloudPollSleepTime randDraw
  if currentCfg.cloudConfig = "" then
    { mutate := mutate0, waitTime := waitTime, pollError := none, cache := cache }
  else
    match fetchCloudConfig cache currentCfg.cloudConfig "" transport with
    | (cache2, Except.ok none) =>
      { mutate := mutate0, waitTime := waitTime, pollError := none, cache := cache2 }
    | (cache2, Except.ok (some bytes)) =>
      { mutate := fun ycfg => ycfg.updateFrom bytes
        waitTime := waitTime, pollError := none, cache := cache2 }
    | (cache2, Except.error e) =>
      { mutate := mutate0, waitTime := waitTime, pollError := some e, cache := cache2 }

/-- Modelled from the spec: the external versioned-config manager
(`yamlconf.Manager`, not under `src/`) applies the poller's mutation to a
copy of the live configuration and, when the mutation succeeds, publishes the
freshly constructed result as a replacement value; the prior live value is
never written through.  Returns the (unchanged) live value together with the
published replacement, if any. -/
def managerApplyMutation (live : Config) (mutate : Config → MergeResult) :
    Config × Option Config :=
  match mutate live with
  | MergeResult.ok final => (live, some final)
  | MergeResult.failed _ _ => (live, none)
  | MergeResult.panicNil => (live, none)

/-! ## The bootstrap race (config.go lines 196-225 and 250-278) -/

/-- The outcome of one racing bootstrap attempt (a chained-server fetch or
the direct domain-fronted fetch): either the fetched body, or any failure
(dialer construction, transport, status, decompression) — a failed attempt
only logs and never touches the result channel. -/
inductive AttemptResult where
  | success (body : Payload)
  | failure
deriving DecidableEq

/-- The shared one-shot delivery state of the race: the `sync.Once` flag and
the contents of the `configs` channel (buffered, capacity 1). -/
structure RaceState where
  fired : Bool
  configs : List Payload
deriving DecidableEq

/-- One attempt reaching the delivery point: on success it runs
`once.Do(func() { configs <- body })` (config.go lines 217 and 276), which
sends only if the once-gate has not fired; a failure delivers nothing. -/
def onceDeliver (st : RaceState) (a : AttemptResult) : RaceState :=
  match a with
  | AttemptResult.failure => st
  | AttemptResult.success b =>
    if st.fired then st else { fired := true, configs := st.configs ++ [b] }

/-- The race among all attempts (every chained server plus the direct
fetcher), modelled over an arbitrary arrival order of the attempts at the
one-shot gate: concurrency is reduced to quantifying over all interleavings,
i.e. over every list of attempt outcomes. -/
def runBootstrapRace (arrivals : List AttemptResult) : RaceState :=
  arrivals.foldl onceDeliver { fired := false, configs := [] }

/-! ## The defaults applier (config.go lines 390-533) -/

/-- `defaultCloudConfigUrl` (config.go line 43). -/
def defaultCloudConfigUrl : String := "http://d2wi0vwulmtn99.cloudfront.net/cloud.yaml.gz"

/-- `cloudflare` constant (config.go line 37). -/
def cloudflare : String := "cloudflare"

/-- Modelled from the spec: the built-in default masquerade collection
`cloudflareMasquerades` (defined in a file of package `config` missing from
`src/`). -/
def cloudflareMasquerades : List Masquerade :=
  [{ domain := "cloudflare.com", ipAddress := "198.41.214.162" }]

/-- Modelled from the spec: the built-in default proxied-sites list
`defaultProxiedSites` (defined in a file of package `config` missing from
`src/`); non-empty. -/
def defaultProxiedSites : List String :=
  ["facebook.com", "twitter.com", "youtube.com"]

/-- Modelled from the spec: the built-in default trusted-CA set
`defaultTrustedCAs` (defined in a file of package `config` missing from
`src/`); non-empty. -/
def defaultTrustedCAs : List CA :=
  [{ commonName := "Go Daddy Root Certificate Authority - G2"
     cert := "-----BEGIN CERTIFICATE----- (Go Daddy G2) -----END CERTIFICATE-----" }]

/-- Modelled from the spec: the value of the `statshubAddr` command-line flag
(declared in a file of package `config` missing from `src/`); the reporting
endpoint default. -/
def statshubAddrFlag : String := "pure-journey-3547.herokuapp.com"

/-- The per-entry defaulting loop body of `applyClientDefaults` (config.go
lines 513-524): fill `QOS`, `Weight` and `RedialAttempts` when zero. -/
def defaultFrontedServer (s : FrontedServerInfo) : FrontedServerInfo :=
  { s with
    qos := if s.qos = 0 then 5 else s.qos
    weight := if s.weight = 0 then 100 else s.weight
    redialAttempts := if s.redialAttempts = 0 then 2 else s.redialAttempts }

/-- Modelled from the spec: `(ClientConfig).SortServers()` (package
`flashlight/client`, not under `src/`) "sorts the server lists into a
deterministic order"; modelled as a stable sort of the fronted-server list by
host. -/
def sortServers (l : List FrontedServerInfo) : List FrontedServerInfo :=
  List.insertionSort (fun a b : FrontedServerInfo => stringLe a.host b.host) l

/-- `(*Config).applyClientDefaults()` (config.go lines 467-533), invoked only
with a non-nil `Client`: ensures at least one masquerade set, defaults
`AutoReport` and `AutoLaunch` to true, fills the per-fronted-server tuning
fields, keeps the chained-server map non-nil (an identity in the list model),
and sorts the server list.  The `launcher.CreateLaunchFile` call is a file
side effect outside the configuration state.  The fall-back population of
`FrontedServers`/`ChainedServers` (lines 481-499) is commented out in the
source, so an empty server list stays empty. -/
def Config.applyClientDefaults (cfg : Config) : Config :=
  match cfg.client with
  | none => cfg
  | some cl0 =>
    let cl2 := if cl0.masqueradeSets.length = 0 then
        { cl0 with masqueradeSets := [(cloudflare, cloudflareMasquerades)] }
      else cl0
    let ar := if cfg.autoReport.isNone then some true else cfg.autoReport
    let al := if cfg.autoLaunch.isNone then some true else cfg.autoLaunch
    let cl3 := { cl2 with frontedServers := cl2.frontedServers.map defaultFrontedServer }
    let cl4 := { cl3 with frontedServers := sortServers cl3.frontedServers }
    { cfg with client := some cl4, autoReport := ar, autoLaunch := al }

/-- `if cfg.Role == "" { cfg.Role = "client" }` (config.go lines 391-393). -/
def defRoleStep (c : Config) : Config :=
  { c with role := if c.role = "" then "client" else c.role }

/-- `if cfg.Addr == "" { ... }` (config.go lines 395-397). -/
def defAddrStep (c : Config) : Config :=
  { c with addr := if c.addr = "" then "127.0.0.1:8787" else c.addr }

/-- `if cfg.UIAddr == "" { ... }` (config.go lines 399-401). -/
def defUIAddrStep (c : Config) : Config :=
  { c with uiAddr := if c.uiAddr = "" then "127.0.0.1:16823" else c.uiAddr }

/-- `if cfg.CloudConfig == "" { ... }` (config.go lines 403-405). -/
def defCloudConfigStep (c : Config) : Config :=
  { c with cloudConfig :=
      if c.cloudConfig = "" then defaultCloudConfigUrl else c.cloudConfig }

/-- `if cfg.InstanceId == "" { cfg.InstanceId = uuid.New() }` (config.go
lines 407-409); the fresh UUID is the explicit argument. -/
def defInstanceIdStep (freshUuid : String) (c : Config) : Config :=
  { c with instanceId := if c.instanceId = "" then freshUuid else c.instanceId }

/-- `if cfg.Stats == nil { cfg.Stats = &statreporter.Config{} }` (config.go
lines 412-414). -/
def defStatsStep (c : Config) : Config :=
  { c with stats := some (c.stats.getD { statshubAddr := "" }) }

/-- `if cfg.Stats.StatshubAddr == "" { ... }` (config.go lines 416-418);
always runs after `defStatsStep`, so the `none` arm is unreachable. -/
def defStatshubStep (c : Config) : Config :=
  { c with stats := match c.stats with
      | none => none
      | some st => some { st with statshubAddr :=
          if st.statshubAddr = "" then statshubAddrFlag else st.statshubAddr } }

/-- `if cfg.Client != nil && cfg.Role == "client" { cfg.applyClientDefaults() }`
(config.go lines 420-422). -/
def defClientStep (c : Config) : Config :=
  if c.client.isSome ∧ c.role = "client" then c.applyClientDefaults else c

/-- `if cfg.ProxiedSites == nil { ... }` (config.go lines 424-433). -/
def defProxiedSitesStep (c : Config) : Config :=
  { c with proxiedSites := some (c.proxiedSites.getD
      { delta := some { additions := [], deletions := [] }, cloud := [] }) }

/-- `if cfg.ProxiedSites.Cloud == nil || len(...) == 0 { ... }` (config.go
lines 435-438); always runs after `defProxiedSitesStep`, so the `none` arm is
unreachable. -/
def defPSCloudStep (c : Config) : Config :=
  { c with proxiedSites := match c.proxiedSites with
      | none => none
      | some ps => some { ps with cloud :=
          if ps.cloud.length = 0 then defaultProxiedSites else ps.cloud } }

/-- `if cfg.TrustedCAs == nil || len(...) == 0 { ... }` (config.go lines
440-442). -/
def defTrustedCAsStep (c : Config) : Config :=
  { c with trustedCAs :=
      if c.trustedCAs.length = 0 then defaultTrustedCAs else c.trustedCAs }

/-- `(*Config).ApplyDefaults()` (config.go lines 390-443): the `if`-blocks of
the source, one step function each, composed in source order.  The call
`uuid.New()` is modelled as the explicit argument `freshUuid` (a freshly
generated UUID string, never empty). -/
def Config.ApplyDefaults (cfg : Config) (freshUuid : String) : Config :=
  defTrustedCAsStep (defPSCloudStep (defProxiedSitesStep (defClientStep
    (defStatshubStep (defStatsStep (defInstanceIdStep freshUuid
      (defCloudConfigStep (defUIAddrStep (defAddrStep (defRoleStep cfg))))))))))

/-! ## Helper lemmas and shared concrete values -/

/-- Reading back a key just written to the etag cache. -/
theorem cacheGet_cacheSet (c : ETagCache) (url v : String) :
    cacheGet (cacheSet c url v) url = v := by
  induction c with
  | nil => simp [cacheSet, cacheGet]
  | cons kv rest ih =>
    by_cases h : kv.1 = url <;> simp [cacheSet, cacheGet, h, ih]

/-- A well-formed update document with no fields present. -/
def emptyPayloadFields : PayloadFields :=
  { version := none, cloudConfig := none, cloudConfigCA := none, addr := none,
    role := none, instanceId := none, cpuProfile := none, memProfile := none,
    uiAddr := none, autoReport := none, autoLaunch := none, stats := none,
    server := none, client := none, proxiedSites := none, trustedCAs := none }

/-- A sample decompressed body used in concrete witnesses. -/
def sampleBody : Payload := Payload.wellFormed emptyPayloadFields

/-- A concrete 304 response. -/
def resp304c : Response := { statusCode := 304, etagHeader := "", body := none }

/-- A concrete 200 response with a fresh etag and a decompressable body. -/
def resp200c : Response := { statusCode := 200, etagHeader := "E2", body := some sampleBody }

/-! ## C6 — jitter bound of the polling scheduler -/

/-- C6: `cloudPollSleepTime` equals half the one-minute base interval plus
the uniform draw from `[0, base)`, hence always lies in the half-open
interval `[30s, 90s)` (in nanoseconds). -/
theorem cloudPollSleepTime_bounds (randDraw : Nat)
    (h : randDraw < CloudConfigPollInterval) :
    cloudPollSleepTime randDraw
        = CloudConfigPollInterval / 2 + randDraw ∧
      30 * 1000000000 ≤ cloudPollSleepTime randDraw ∧
      cloudPollSleepTime randDraw < 90 * 1000000000 := by
  refine ⟨rfl, ?_, ?_⟩ <;>
    (unfold cloudPollSleepTime CloudConfigPollInterval at *; omega)

/-- Witness for C6 at the concrete draw `0`. -/
theorem cloudPollSleepTime_bounds_witness :
    0 < CloudConfigPollInterval ∧
      (cloudPollSleepTime 0 = CloudConfigPollInterval / 2 + 0 ∧
        30 * 1000000000 ≤ cloudPollSleepTime 0 ∧
        cloudPollSleepTime 0 < 90 * 1000000000) :=
  ⟨by decide, cloudPollSleepTime_bounds 0 (by decide)⟩

/-! ## C3 — conditional fetch cache behaviour -/

/-- C3: a fetch answered with status 304 returns the absent body with no
error and leaves the etag cache unchanged; a fetch answered with status 200
(and a decompressable body) updates the cached token for the URL to the
response's `X-Lantern-Etag` header value and returns the decompressed
body. -/
theorem fetchCloudConfig_conditional_cache (cache : ETagCache)
    (url authToken : String) (resp3 resp2 : Response) (p : Payload)
    (h304 : resp3.statusCode = 304)
    (h200 : resp2.statusCode = 200) (hbody : resp2.body = some p) :
    fetchCloudConfig cache url authToken (fun _ => Except.ok resp3)
        = (cache, Except.ok none) ∧
      fetchCloudConfig cache url authToken (fun _ => Except.ok resp2)
        = (cacheSet cache url resp2.etagHeader, Except.ok (some p)) ∧
      cacheGet (fetchCloudConfig cache url authToken (fun _ => Except.ok resp2)).1 url
        = resp2.etagHeader := by
  refine ⟨?_, ?_, ?_⟩ <;>
    simp [fetchCloudConfig, readConfigResponse, h304, h200, hbody, cacheGet_cacheSet]

/-- Witness for C3 on a concrete cache holding token `E1` for URL `u`. -/
theorem fetchCloudConfig_conditional_cache_witness :
    (resp304c.statusCode = 304 ∧ resp200c.statusCode = 200 ∧
        resp200c.body = some sampleBody) ∧
      (fetchCloudConfig [("u", "E1")] "u" "" (fun _ => Except.ok resp304c)
          = ([("u", "E1")], Except.ok none) ∧
        fetchCloudConfig [("u", "E1")] "u" "" (fun _ => Except.ok resp200c)
          = (cacheSet [("u", "E1")] "u" resp200c.etagHeader, Except.ok (some sampleBody)) ∧
        cacheGet (fetchCloudConfig [("u", "E1")] "u" "" (fun _ => Except.ok resp200c)).1 "u"
          = resp200c.etagHeader) :=
  ⟨⟨by decide, by decide, by decide⟩,
    fetchCloudConfig_conditional_cache [("u", "E1")] "u" "" resp304c resp200c sampleBody
      (by decide) (by decide) (by decide)⟩

/-! ## C4 — what fetch failures do to the cache

The claim is false on the code for one of its three failure classes: on a
200 response `readConfigResponse` writes the etag cache (config.go line 610)
before opening the gzip reader (line 611), so a decompression failure leaves
the cache already updated to the new token. -/

/-- C4 counterexample: a 200 response carrying etag `E2` whose body fails to
decompress changes the cached token for the URL from `E1` to `E2`, while the
claim demands it stay `E1`. -/
theorem readConfigResponse_gzip_error_updates_cache :
    readConfigResponse [("u", "E1")] "u"
        { statusCode := 200, etagHeader := "E2", body := none }
      = ([("u", "E2")], Except.error "Unable to open gzip reader") ∧
      cacheGet (readConfigResponse [("u", "E1")] "u"
          { statusCode := 200, etagHeader := "E2", body := none }).1 "u" ≠ "E1" :=
  ⟨rfl, by decide⟩

/-- C4 amended: a transport error or a non-200/304 status returns an error
describing the cause and leaves the cache untouched; a decompression error on
a 200 response returns an error but the cached token has already been
overwritten with the response's `X-Lantern-Etag` header value. -/
theorem fetchCloudConfig_error_cases (cache : ETagCache) (url authToken : String)
    (e : String) (respBad respGz : Response)
    (hb1 : respBad.statusCode ≠ 304) (hb2 : respBad.statusCode ≠ 200)
    (hg1 : respGz.statusCode = 200) (hg2 : respGz.body = none) :
    fetchCloudConfig cache url authToken (fun _ => Except.error e)
        = (cache, Except.error ("Unable to fetch cloud config at " ++ url ++ ": " ++ e)) ∧
      fetchCloudConfig cache url authToken (fun _ => Except.ok respBad)
        = (cache, Except.error ("Unexpected response status: " ++ toString respBad.statusCode)) ∧
      fetchCloudConfig cache url authToken (fun _ => Except.ok respGz)
        = (cacheSet cache url respGz.etagHeader, Except.error "Unable to open gzip reader") := by
  refine ⟨?_, ?_, ?_⟩ <;>
    simp [fetchCloudConfig, readConfigResponse, hb1, hb2, hg1, hg2]

/-- Witness for C4 (amended) at a concrete cache, a concrete 500 response and
a concrete 200 response with an undecompressable body. -/
theorem fetchCloudConfig_error_cases_witness :
    ((500 : Nat) ≠ 304 ∧ (500 : Nat) ≠ 200) ∧
      (fetchCloudConfig [("u", "E1")] "u" "" (fun _ => Except.error "dial tcp: timeout")
          = ([("u", "E1")],
             Except.error ("Unable to fetch cloud config at " ++ "u" ++ ": " ++ "dial tcp: timeout")) ∧
        fetchCloudConfig [("u", "E1")] "u" ""
            (fun _ => Except.ok { statusCode := 500, etagHeader := "", body := none })
          = ([("u", "E1")], Except.error ("Unexpected response status: " ++ toString (500 : Nat))) ∧
        fetchCloudConfig [("u", "E1")] "u" ""
            (fun _ => Except.ok { statusCode := 200, etagHeader := "E2", body := none })
          = (cacheSet [("u", "E1")] "u" "E2", Except.error "Unable to open gzip reader")) :=
  ⟨⟨by decide, by decide⟩,
    fetchCloudConfig_error_cases [("u", "E1")] "u" "" "dial tcp: timeout"
      { statusCode := 500, etagHeader := "", body := none }
      { statusCode := 200, etagHeader := "E2", body := none }
      (by decide) (by decide) (by decide) (by decide)⟩

/-! ## C9 — bootstrap race single winner -/

/-- Once the one-shot gate has fired, no later arrival changes the race
state. -/
theorem foldl_onceDeliver_fired (l : List AttemptResult) (st : RaceState)
    (h : st.fired = true) : l.foldl onceDeliver st = st := by
  induction l generalizing st with
  | nil => rfl
  | cons a l ih =>
    cases a with
    | failure => exact ih st h
    | success b =>
      have hd : onceDeliver st (AttemptResult.success b) = st := by
        simp [onceDeliver, h]
      rw [List.foldl_cons, hd]
      exact ih st h

/-- C9: for every arrival order of the racing attempts in which at least one
attempt succeeds, the result channel ends up holding exactly one payload, and
that payload is the body of one of the successful attempts — a failed attempt
never delivers, and every success after the first is discarded by the
one-shot gate. -/
theorem bootstrapRace_single_winner (arrivals : List AttemptResult)
    (h : ∃ b, AttemptResult.success b ∈ arrivals) :
    ∃ b, (runBootstrapRace arrivals).configs = [b] ∧
      AttemptResult.success b ∈ arrivals := by
  induction arrivals with
  | nil => obtain ⟨b, hb⟩ := h; cases hb
  | cons a l ih =>
    cases a with
    | failure =>
      have h2 : ∃ b, AttemptResult.success b ∈ l := by
        obtain ⟨b, hb⟩ := h
        cases hb with
        | tail _ hm => exact ⟨b, hm⟩
      obtain ⟨b, h1, hm⟩ := ih h2
      exact ⟨b, h1, List.mem_cons_of_mem _ hm⟩
    | success b =>
      refine ⟨b, ?_, List.mem_cons_self _ _⟩
      have hd : onceDeliver { fired := false, configs := [] }
          (AttemptResult.success b) = { fired := true, configs := [b] } := rfl
      show (List.foldl onceDeliver { fired := false, configs := [] }
        (AttemptResult.success b :: l)).configs = [b]
      rw [List.foldl_cons, hd, foldl_onceDeliver_fired l _ rfl]

/-- Witness for C9, matching the spec's example: three chained attempts of
which one fails and two succeed, plus a successful direct attempt, in one
concrete arrival order; the consumer observes exactly the first success. -/
theorem bootstrapRace_single_winner_witness :
    (∃ b, AttemptResult.success b ∈
        [AttemptResult.failure, AttemptResult.success sampleBody,
          AttemptResult.success (Payload.malformed "x"),
          AttemptResult.success sampleBody]) ∧
      ∃ b, (runBootstrapRace
          [AttemptResult.failure, AttemptResult.success sampleBody,
            AttemptResult.success (Payload.malformed "x"),
            AttemptResult.success sampleBody]).configs = [b] ∧
        AttemptResult.success b ∈
          [AttemptResult.failure, AttemptResult.success sampleBody,
            AttemptResult.success (Payload.malformed "x"),
            AttemptResult.success sampleBody] :=
  ⟨⟨sampleBody, by decide⟩,
    bootstrapRace_single_winner _ ⟨sampleBody, by decide⟩⟩

/-! ## C8 — the poller never mutates the polled snapshot -/

/-- C8: the mutation proposed by `pollWithHttpClient` does not capture the
polled snapshot: it is the same function for any two snapshots sharing the
cloud-config URL, and applied to a configuration `c` it either returns `c`
untouched (the do-nothing default) or merges the fetched payload into `c` —
the configuration live at mutation time, not the snapshot.  Moreover the
external manager, which applies the mutation to a copy, keeps the prior live
value unchanged whatever the merge outcome. -/
theorem pollWithHttpClient_mutation_frame (cache : ETagCache)
    (cfg cfg2 : Config) (randDraw : Nat)
    (transport : Request → Except String Response)
    (h : cfg.cloudConfig = cfg2.cloudConfig) :
    (pollWithHttpClient cache cfg randDraw transport).mutate
        = (pollWithHttpClient cache cfg2 randDraw transport).mutate ∧
      (∀ c : Config,
        (pollWithHttpClient cache cfg randDraw transport).mutate c = MergeResult.ok c ∨
          ∃ p : Payload,
            (pollWithHttpClient cache cfg randDraw transport).mutate c = c.updateFrom p) ∧
      (∀ live : Config,
        (managerApplyMutation live
            (pollWithHttpClient cache cfg randDraw transport).mutate).1 = live) := by
  refine ⟨by simp only [pollWithHttpClient, h], ?_, ?_⟩
  · intro c
    by_cases hc : cfg.cloudConfig = ""
    · left; simp [pollWithHttpClient, hc]
    · rcases hf : fetchCloudConfig cache cfg.cloudConfig "" transport with ⟨cache2, r⟩
      rcases r with e | ob
      · left; simp [pollWithHttpClient, hc, hf]
      · rcases ob with _ | p
        · left; simp [pollWithHttpClient, hc, hf]
        · right; exact ⟨p, by simp [pollWithHttpClient, hc, hf]⟩
  · intro live
    rcases hm : (pollWithHttpClient cache cfg randDraw transport).mutate live with _ | ⟨m, f⟩ | f <;>
      simp [managerApplyMutation, hm]

/-- The all-empty configuration value `&Config{}` (every string empty, every
pointer nil, every collection empty), used as the base of concrete
witnesses. -/
def baseConfig : Config :=
  { version := 0, cloudConfig := "", cloudConfigCA := "", addr := "", role := "",
    instanceId := "", cpuProfile := "", memProfile := "", uiAddr := "",
    autoReport := none, autoLaunch := none, stats := none, server := none,
    client := none, proxiedSites := none, trustedCAs := [] }

/-- A concrete snapshot with cloud-config URL `u`. -/
def cfgSnapA : Config := { baseConfig with version := 1, cloudConfig := "u" }

/-- A second, distinct concrete snapshot with the same cloud-config URL. -/
def cfgSnapB : Config := { baseConfig with version := 2, cloudConfig := "u" }

/-- Witness for C8: two distinct concrete snapshots sharing the cloud-config
URL, polled through a failing transport. -/
theorem pollWithHttpClient_mutation_frame_witness :
    cfgSnapA.cloudConfig = cfgSnapB.cloudConfig ∧
      ((pollWithHttpClient [] cfgSnapA 0 (fun _ => Except.error "down")).mutate
          = (pollWithHttpClient [] cfgSnapB 0 (fun _ => Except.error "down")).mutate ∧
        (∀ c : Config,
          (pollWithHttpClient [] cfgSnapA 0 (fun _ => Except.error "down")).mutate c
              = MergeResult.ok c ∨
            ∃ p : Payload,
              (pollWithHttpClient [] cfgSnapA 0 (fun _ => Except.error "down")).mutate c
                = c.updateFrom p) ∧
        (∀ live : Config,
          (managerApplyMutation live
              (pollWithHttpClient [] cfgSnapA 0 (fun _ => Except.error "down")).mutate).1
            = live)) :=
  ⟨rfl, pollWithHttpClient_mutation_frame [] cfgSnapA cfgSnapB 0
    (fun _ => Except.error "down") rfl⟩

/-! ## Merge helpers shared by C1, C2, C5 and C10 -/

/-- The configuration produced by deserializing the well-formed fields `f`
onto `cfg` after `updateFrom` has cleared the four collections. -/
def mergedOf (cfg : Config) (cl : ClientConfig) (f : PayloadFields) : Config :=
  yamlUnmarshalFields f
    { cfg with
      client := some { cl with frontedServers := [], chainedServers := [], masqueradeSets := [] }
      trustedCAs := [] }

/-- Unfolding of `updateFrom` on a well-formed payload when the client
sub-configuration is present. -/
theorem updateFrom_wellFormed_eq (cfg : Config) (cl : ClientConfig) (f : PayloadFields)
    (h : cfg.client = some cl) :
    cfg.updateFrom (Payload.wellFormed f)
      = (match (mergedOf cfg cl f).proxiedSites with
        | none => MergeResult.panicNil
        | some ps =>
          if 0 < ps.cloud.length then
            MergeResult.ok { mergedOf cfg cl f with
              proxiedSites := some { ps with cloud := dedupCloud ps.cloud } }
          else MergeResult.ok (mergedOf cfg cl f)) := by
  simp only [Config.updateFrom, h, yamlUnmarshal, mergedOf]

/-- Unfolding of `updateFrom` on a malformed payload when the client
sub-configuration is present: the restore of the four cleared collections
reconstructs the receiver exactly. -/
theorem updateFrom_malformed_eq (cfg : Config) (cl : ClientConfig) (msg : String)
    (h : cfg.client = some cl) :
    cfg.updateFrom (Payload.malformed msg)
      = MergeResult.failed ("Unable to unmarshal YAML for update: " ++ msg) cfg := by
  simp only [Config.updateFrom, h, yamlUnmarshal]
  congr 1
  rw [← h]

/-- The dedup-and-sort block produces a lexicographically sorted list. -/
theorem dedupCloud_sorted (l : List String) :
    List.Sorted stringLe (dedupCloud l) :=
  List.sorted_insertionSort _ _

/-- A `stringLe`-sorted list is sorted for the `String` linear order as
well: the two orders coincide. -/
theorem sorted_le_of_sorted_stringLe (l : List String)
    (h : List.Sorted stringLe l) : List.Sorted (fun a b : String => a ≤ b) l := by
  refine h.imp ?_
  intro a b hab
  rw [String.le_iff_toList_le]
  exact hab

/-- The dedup-and-sort block produces a duplicate-free list. -/
theorem dedupCloud_nodup (l : List String) : (dedupCloud l).Nodup :=
  ((List.perm_insertionSort _ _).nodup_iff).2 (List.nodup_dedup l)

/-- The dedup-and-sort block preserves exactly the set of domains. -/
theorem mem_dedupCloud (l : List String) (x : String) : x ∈ dedupCloud l ↔ x ∈ l := by
  unfold dedupCloud
  rw [List.mem_insertionSort, List.mem_dedup]

/-- Whether a raw payload is one the codec rejects. -/
def Payload.isMalformed : Payload → Bool
  | Payload.malformed _ => true
  | Payload.wellFormed _ => false

/-- Whether a raw payload carries a proxied-sites section. -/
def Payload.providesProxiedSites : Payload → Bool
  | Payload.malformed _ => false
  | Payload.wellFormed f => f.proxiedSites.isSome

/-- A configuration whose client sub-configuration is present (and nothing
else set), as after the codec allocates an empty client section. -/
def cfgWithClient : Config := { baseConfig with client := some emptyClientConfig }

/-- A configuration with a client sub-configuration and an (empty)
proxied-sites policy. -/
def cfgClientAndPS : Config :=
  { cfgWithClient with proxiedSites := some { delta := none, cloud := [] } }

/-! ## C1 — merge atomicity on malformed payloads

As stated over *every* current configuration the claim fails: when the
current configuration's client sub-configuration is nil, `updateFrom`
dereferences `updated.Client` (config.go line 624) before ever calling the
codec, and crashes instead of returning an error. -/

/-- C1 counterexample: on the all-empty configuration (nil `Client`), merge
of a malformed payload crashes with a nil-pointer dereference rather than
returning an error, so no error and no unchanged-configuration guarantee is
delivered at this input. -/
theorem updateFrom_nil_client_no_error :
    baseConfig.updateFrom (Payload.malformed "yaml: did not find expected node content")
      = MergeResult.panicNil := rfl

/-- C1 (amended): for every configuration whose client sub-configuration is
present, merging a payload the codec rejects fails with an error and leaves
the configuration exactly as it was — the fronted-server list, chained-server
map, masquerade-set map and trusted-CA list (and every other field) are
unchanged, with no partial mutation observable. -/
theorem updateFrom_malformed_atomic (cfg : Config) (cl : ClientConfig) (msg : String)
    (h : cfg.client = some cl) :
    cfg.updateFrom (Payload.malformed msg)
      = MergeResult.failed ("Unable to unmarshal YAML for update: " ++ msg) cfg :=
  updateFrom_malformed_eq cfg cl msg h

/-- Witness for C1 (amended) on a concrete configuration with a client
sub-configuration. -/
theorem updateFrom_malformed_atomic_witness :
    cfgWithClient.client = some emptyClientConfig ∧
      cfgWithClient.updateFrom (Payload.malformed "yaml: control characters are not allowed")
        = MergeResult.failed
            ("Unable to unmarshal YAML for update: "
              ++ "yaml: control characters are not allowed") cfgWithClient :=
  ⟨rfl, updateFrom_malformed_atomic cfgWithClient emptyClientConfig
    "yaml: control characters are not allowed" rfl⟩

/-! ## C2 — replace-semantics of the merge -/

/-- C2: whenever merge of a well-formed payload returns a result, the
result's fronted-server list, chained-server mapping and masquerade-set
mapping are exactly the ones present in the payload's client section (empty
when absent), and the trusted-CA list is exactly the payload's (empty when
absent) — never a union with the prior entries. -/
theorem updateFrom_replace_semantics (cfg : Config) (f : PayloadFields) (final : Config)
    (h : cfg.updateFrom (Payload.wellFormed f) = MergeResult.ok final) :
    ∃ cl, final.client = some cl ∧
      cl.frontedServers = (f.client.bind ClientPayload.frontedServers).getD [] ∧
      cl.chainedServers = (f.client.bind ClientPayload.chainedServers).getD [] ∧
      cl.masqueradeSets = (f.client.bind ClientPayload.masqueradeSets).getD [] ∧
      final.trustedCAs = f.trustedCAs.getD [] := by
  cases hcl : cfg.client with
  | none =>
    simp only [Config.updateFrom, hcl] at h
    exact MergeResult.noConfusion h
  | some cl =>
    rw [updateFrom_wellFormed_eq cfg cl f hcl] at h
    have hclient : final.client = (mergedOf cfg cl f).client ∧
        final.trustedCAs = (mergedOf cfg cl f).trustedCAs := by
      cases hps : (mergedOf cfg cl f).proxiedSites with
      | none =>
        simp only [hps] at h
        exact MergeResult.noConfusion h
      | some ps =>
        simp only [hps] at h
        by_cases hlen : 0 < ps.cloud.length
        · rw [if_pos hlen] at h
          injection h with h2
          subst h2
          exact ⟨rfl, rfl⟩
        · rw [if_neg hlen] at h
          injection h with h2
          subst h2
          exact ⟨rfl, rfl⟩
    obtain ⟨hc, hca⟩ := hclient
    cases hfc : f.client with
    | none =>
      refine ⟨{ cl with frontedServers := [], chainedServers := [], masqueradeSets := [] },
        ?_, ?_, ?_, ?_, ?_⟩
      · rw [hc]; simp [mergedOf, yamlUnmarshalFields, hfc]
      · simp [hfc]
      · simp [hfc]
      · simp [hfc]
      · rw [hca]; simp [mergedOf, yamlUnmarshalFields]
    | some cp =>
      refine ⟨unmarshalClient cp
          { cl with frontedServers := [], chainedServers := [], masqueradeSets := [] },
        ?_, ?_, ?_, ?_, ?_⟩
      · rw [hc]; simp [mergedOf, yamlUnmarshalFields, hfc]
      · simp [unmarshalClient, hfc]
      · simp [unmarshalClient, hfc]
      · simp [unmarshalClient, hfc]
      · rw [hca]; simp [mergedOf, yamlUnmarshalFields]

/-- A concrete chained-server descriptor for witnesses. -/
def chainedA : ChainedServerInfo := { addr := "1.2.3.4:443", authToken := "t1" }

/-- A concrete current configuration with three chained servers. -/
def cfg3Chained : Config :=
  { baseConfig with
    client := some
      { minQOS := 0
        frontedServers := []
        chainedServers := [("a", chainedA), ("b", chainedA), ("c", chainedA)]
        masqueradeSets := [] }
    proxiedSites := some { delta := none, cloud := ["x.com"] } }

/-- A concrete update payload whose client section specifies exactly one
chained server. -/
def payload1Chained : PayloadFields :=
  { emptyPayloadFields with
    client := some
      { minQOS := none
        frontedServers := none
        chainedServers := some [("d", chainedA)]
        masqueradeSets := none } }

/-- The configuration the merge of `payload1Chained` into `cfg3Chained`
produces: exactly one chained server — not four. -/
def final1Chained : Config :=
  { baseConfig with
    client := some
      { minQOS := 0
        frontedServers := []
        chainedServers := [("d", chainedA)]
        masqueradeSets := [] }
    proxiedSites := some { delta := none, cloud := ["x.com"] } }

/-- Witness for C2, matching the spec's example: a configuration with 3
chained servers merged with a payload specifying 1 chained server yields
exactly that 1 chained server. -/
theorem updateFrom_replace_semantics_witness :
    cfg3Chained.updateFrom (Payload.wellFormed payload1Chained)
        = MergeResult.ok final1Chained ∧
      ∃ cl, final1Chained.client = some cl ∧
        cl.frontedServers = (payload1Chained.client.bind ClientPayload.frontedServers).getD [] ∧
        cl.chainedServers = (payload1Chained.client.bind ClientPayload.chainedServers).getD [] ∧
        cl.masqueradeSets = (payload1Chained.client.bind ClientPayload.masqueradeSets).getD [] ∧
        final1Chained.trustedCAs = payload1Chained.trustedCAs.getD [] :=
  ⟨by decide, updateFrom_replace_semantics cfg3Chained payload1Chained final1Chained (by decide)⟩

/-! ## C5 — dedup and sort of the cloud proxied-sites list -/

/-- The cloud proxied-sites list of the merged document before the
dedup-and-sort block runs: the payload's list when the payload carries one,
otherwise the list retained from the current configuration. -/
def mergedCloudOf (cfg : Config) (f : PayloadFields) : List String :=
  match f.proxiedSites with
  | some pp => pp.cloud.getD (cfg.proxiedSites.getD emptyProxiedSites).cloud
  | none => (cfg.proxiedSites.getD emptyProxiedSites).cloud

/-- C5: for every successful merge whose resulting cloud proxied-sites list
is non-empty, that list is exactly the dedup-and-sort of the merged
document's cloud list (whether the payload carried it or it was retained
from the current configuration): lexicographically sorted, duplicate-free by
case-sensitive exact match, and containing exactly the merged list's
domains. -/
theorem updateFrom_dedup_sort_cloud (cfg : Config) (f : PayloadFields)
    (final : Config) (ps : ProxiedSitesConfig)
    (h : cfg.updateFrom (Payload.wellFormed f) = MergeResult.ok final)
    (hps : final.proxiedSites = some ps) (hne : ps.cloud ≠ []) :
    ps.cloud = dedupCloud (mergedCloudOf cfg f) ∧
      List.Sorted (fun a b : String => a ≤ b) ps.cloud ∧ ps.cloud.Nodup ∧
      (∀ x, x ∈ ps.cloud ↔ x ∈ mergedCloudOf cfg f) := by
  cases hcl : cfg.client with
  | none =>
    simp only [Config.updateFrom, hcl] at h
    exact MergeResult.noConfusion h
  | some cl =>
    rw [updateFrom_wellFormed_eq cfg cl f hcl] at h
    cases hm : (mergedOf cfg cl f).proxiedSites with
    | none =>
      simp only [hm] at h
      exact MergeResult.noConfusion h
    | some ps0 =>
      have hmc : ps0.cloud = mergedCloudOf cfg f := by
        cases hfp : f.proxiedSites with
        | some pp =>
          have hm2 : (mergedOf cfg cl f).proxiedSites
              = some (unmarshalProxiedSites pp (cfg.proxiedSites.getD emptyProxiedSites)) := by
            simp [mergedOf, yamlUnmarshalFields, hfp]
          rw [hm2] at hm
          obtain rfl := Option.some.inj hm
          simp [unmarshalProxiedSites, mergedCloudOf, hfp]
        | none =>
          have hm2 : (mergedOf cfg cl f).proxiedSites = cfg.proxiedSites := by
            simp [mergedOf, yamlUnmarshalFields, hfp]
          rw [hm2] at hm
          simp [mergedCloudOf, hfp, hm]
      simp only [hm] at h
      by_cases hlen : 0 < ps0.cloud.length
      · rw [if_pos hlen] at h
        injection h with h2
        subst h2
        obtain rfl := Option.some.inj hps
        rw [← hmc]
        exact ⟨rfl, sorted_le_of_sorted_stringLe _ (dedupCloud_sorted _),
          dedupCloud_nodup _, fun x => mem_dedupCloud _ x⟩
      · rw [if_neg hlen] at h
        injection h with h2
        subst h2
        rw [hm] at hps
        obtain rfl := Option.some.inj hps
        exact absurd (List.length_eq_zero.mp (Nat.eq_zero_of_not_pos hlen)) hne

/-- The proxied-sites section of the C5 witness payload: an unordered cloud
list with a duplicate. -/
def ppDupes : ProxiedSitesPayload :=
  { delta := none, cloud := some ["b.com", "a.com", "a.com"] }

/-- The C5 witness payload carrying the duplicate cloud list. -/
def payloadDupes : PayloadFields :=
  { emptyPayloadFields with proxiedSites := some ppDupes }

/-- The merge result on both C5 witness scenarios: the cloud list has become
`["a.com", "b.com"]`. -/
def finalDupes : Config :=
  { cfgWithClient with proxiedSites := some { delta := none, cloud := ["a.com", "b.com"] } }

/-- A current configuration whose own cloud list is the unordered duplicate
list, merged with a payload that omits the proxied-sites field. -/
def cfgRetainedDupes : Config :=
  { cfgWithClient with
    proxiedSites := some { delta := none, cloud := ["b.com", "a.com", "a.com"] } }

/-- Witness for C5 in both scenarios the claim covers: a payload carrying
`["b.com", "a.com", "a.com"]`, and a payload omitting the field so that the
same list is retained from the current configuration — each merge yields the
cloud list `["a.com", "b.com"]`. -/
theorem updateFrom_dedup_sort_cloud_witness :
    (cfgClientAndPS.updateFrom (Payload.wellFormed payloadDupes)
          = MergeResult.ok finalDupes ∧
        cfgRetainedDupes.updateFrom (Payload.wellFormed emptyPayloadFields)
          = MergeResult.ok finalDupes ∧
        finalDupes.proxiedSites = some { delta := none, cloud := ["a.com", "b.com"] } ∧
        ("a.com" :: "b.com" :: ([] : List String)) ≠ []) ∧
      (({ delta := none, cloud := ["a.com", "b.com"] } : ProxiedSitesConfig).cloud
          = dedupCloud (mergedCloudOf cfgClientAndPS payloadDupes) ∧
        List.Sorted (fun a b : String => a ≤ b)
          ({ delta := none, cloud := ["a.com", "b.com"] } : ProxiedSitesConfig).cloud ∧
        ({ delta := none, cloud := ["a.com", "b.com"] } : ProxiedSitesConfig).cloud.Nodup ∧
        (∀ x, x ∈ ({ delta := none, cloud := ["a.com", "b.com"] } : ProxiedSitesConfig).cloud
          ↔ x ∈ mergedCloudOf cfgClientAndPS payloadDupes)) ∧
      (({ delta := none, cloud := ["a.com", "b.com"] } : ProxiedSitesConfig).cloud
          = dedupCloud (mergedCloudOf cfgRetainedDupes emptyPayloadFields) ∧
        List.Sorted (fun a b : String => a ≤ b)
          ({ delta := none, cloud := ["a.com", "b.com"] } : ProxiedSitesConfig).cloud ∧
        ({ delta := none, cloud := ["a.com", "b.com"] } : ProxiedSitesConfig).cloud.Nodup ∧
        (∀ x, x ∈ ({ delta := none, cloud := ["a.com", "b.com"] } : ProxiedSitesConfig).cloud
          ↔ x ∈ mergedCloudOf cfgRetainedDupes emptyPayloadFields)) :=
  ⟨⟨by rfl, by rfl, rfl, by decide⟩,
    updateFrom_dedup_sort_cloud cfgClientAndPS payloadDupes finalDupes
      { delta := none, cloud := ["a.com", "b.com"] } (by rfl) rfl (by decide),
    updateFrom_dedup_sort_cloud cfgRetainedDupes emptyPayloadFields finalDupes
      { delta := none, cloud := ["a.com", "b.com"] } (by rfl) rfl (by decide)⟩

/-! ## C10 — totality of the merge at the public interface

The claim is false on the code: `updateFrom` dereferences `updated.Client`
(config.go line 624) and, on the success path, `updated.ProxiedSites`
(line 641) without nil checks, so a first-run configuration lacking either
crashes the merge with a nil-pointer dereference. -/

/-- C10 counterexample: a configuration whose client sub-configuration is
present but whose proxied-sites policy is nil, merged with a well-formed
payload that omits the proxied-sites section, crashes at
`updated.ProxiedSites.Cloud` instead of returning a result or an error. -/
theorem updateFrom_nil_proxied_sites_panics :
    cfgWithClient.updateFrom (Payload.wellFormed emptyPayloadFields)
      = MergeResult.panicNil := rfl

/-- C10 (amended): merge always terminates, and returns a result or an error
— never crashing — provided the current configuration's client
sub-configuration is present and, unless the payload is malformed, a
proxied-sites policy is available from the current configuration or the
payload; with a nil client sub-configuration (or a nil merged proxied-sites
policy) it instead crashes with a nil-pointer dereference. -/
theorem updateFrom_total_when_safe (cfg : Config) (p : Payload)
    (hcl : cfg.client.isSome = true)
    (hsafe : p.isMalformed = true ∨ cfg.proxiedSites.isSome = true ∨
      p.providesProxiedSites = true) :
    (∃ msg final, cfg.updateFrom p = MergeResult.failed msg final) ∨
      (∃ final, cfg.updateFrom p = MergeResult.ok final) := by
  obtain ⟨cl, hcl2⟩ := Option.isSome_iff_exists.mp hcl
  cases p with
  | malformed msg =>
    left
    exact ⟨_, _, updateFrom_malformed_eq cfg cl msg hcl2⟩
  | wellFormed f =>
    right
    rw [updateFrom_wellFormed_eq cfg cl f hcl2]
    have hps : ∃ ps0, (mergedOf cfg cl f).proxiedSites = some ps0 := by
      rcases hsafe with hm | hcfg | hpp
      · simp [Payload.isMalformed] at hm
      · obtain ⟨ps, hps2⟩ := Option.isSome_iff_exists.mp hcfg
        cases hfp : f.proxiedSites with
        | none => exact ⟨ps, by simp [mergedOf, yamlUnmarshalFields, hfp, hps2]⟩
        | some pp =>
          exact ⟨unmarshalProxiedSites pp (cfg.proxiedSites.getD emptyProxiedSites),
            by simp [mergedOf, yamlUnmarshalFields, hfp]⟩
      · simp only [Payload.providesProxiedSites] at hpp
        obtain ⟨pp, hpp2⟩ := Option.isSome_iff_exists.mp hpp
        exact ⟨unmarshalProxiedSites pp (cfg.proxiedSites.getD emptyProxiedSites),
          by simp [mergedOf, yamlUnmarshalFields, hpp2]⟩
    obtain ⟨ps0, hps0⟩ := hps
    simp only [hps0]
    by_cases hlen : 0 < ps0.cloud.length
    · rw [if_pos hlen]
      exact ⟨_, rfl⟩
    · rw [if_neg hlen]
      exact ⟨_, rfl⟩

/-- Witness for C10 (amended) on a concrete configuration carrying a client
sub-configuration and a proxied-sites policy, merged with the empty
well-formed payload. -/
theorem updateFrom_total_when_safe_witness :
    (cfgClientAndPS.client.isSome = true ∧ cfgClientAndPS.proxiedSites.isSome = true) ∧
      ((∃ msg final, cfgClientAndPS.updateFrom (Payload.wellFormed emptyPayloadFields)
            = MergeResult.failed msg final) ∨
        (∃ final, cfgClientAndPS.updateFrom (Payload.wellFormed emptyPayloadFields)
            = MergeResult.ok final)) :=
  ⟨⟨by decide, by decide⟩,
    updateFrom_total_when_safe cfgClientAndPS (Payload.wellFormed emptyPayloadFields)
      (by decide) (Or.inr (Or.inl (by decide)))⟩

/-! ## C7 — idempotence of the defaults applier

The proof goes through an explicit invariant: `Defaulted` states that every
field the defaulting branches test is already non-empty/non-nil, each
defaulting step is the identity on a `Defaulted` configuration, and one
application of `ApplyDefaults` establishes `Defaulted`. -/

instance : IsTotal FrontedServerInfo (fun a b : FrontedServerInfo => stringLe a.host b.host) :=
  ⟨fun a b => le_total a.host.data b.host.data⟩

instance : IsTrans FrontedServerInfo (fun a b : FrontedServerInfo => stringLe a.host b.host) :=
  ⟨fun _ _ _ h1 h2 => le_trans h1 h2⟩

theorem defaultFrontedServer_nonzero (s : FrontedServerInfo) :
    (defaultFrontedServer s).qos ≠ 0 ∧ (defaultFrontedServer s).weight ≠ 0 ∧
      (defaultFrontedServer s).redialAttempts ≠ 0 := by
  refine ⟨?_, ?_, ?_⟩ <;>
    · show (ite _ _ _ : Int) ≠ 0
      split_ifs with h
      · omega
      · exact h

theorem defaultFrontedServer_fixed (s : FrontedServerInfo)
    (h1 : s.qos ≠ 0) (h2 : s.weight ≠ 0) (h3 : s.redialAttempts ≠ 0) :
    defaultFrontedServer s = s := by
  unfold defaultFrontedServer
  rw [if_neg h1, if_neg h2, if_neg h3]

theorem map_defaultFrontedServer_fixed (l : List FrontedServerInfo)
    (h : ∀ s ∈ l, s.qos ≠ 0 ∧ s.weight ≠ 0 ∧ s.redialAttempts ≠ 0) :
    l.map defaultFrontedServer = l := by
  induction l with
  | nil => rfl
  | cons a l ih =>
    obtain ⟨⟨h1, h2, h3⟩, hrest⟩ := List.forall_mem_cons.mp h
    simp [defaultFrontedServer_fixed a h1 h2 h3, ih hrest]

theorem applyClientDefaults_fixed (c : Config) (cl0 : ClientConfig)
    (hc : c.client = some cl0)
    (hm : cl0.masqueradeSets ≠ [])
    (hfs : ∀ s ∈ cl0.frontedServers, s.qos ≠ 0 ∧ s.weight ≠ 0 ∧ s.redialAttempts ≠ 0)
    (hsort : List.Sorted (fun a b : FrontedServerInfo => stringLe a.host b.host)
      cl0.frontedServers)
    (har : c.autoReport.isSome = true) (hal : c.autoLaunch.isSome = true) :
    c.applyClientDefaults = c := by
  have hlen : ¬ cl0.masqueradeSets.length = 0 := fun h0 => hm (List.length_eq_zero.mp h0)
  have har2 : c.autoReport.isNone = false := by
    cases h : c.autoReport
    · rw [h] at har; simp at har
    · rfl
  have hal2 : c.autoLaunch.isNone = false := by
    cases h : c.autoLaunch
    · rw [h] at hal; simp at hal
    · rfl
  simp only [Config.applyClientDefaults, hc, if_neg hlen, har2, hal2, Bool.false_eq_true,
    if_false, sortServers, map_defaultFrontedServer_fixed _ hfs,
    List.Sorted.insertionSort_eq hsort]
  rw [← hc]

theorem applyClientDefaults_spec (c : Config) (cl0 : ClientConfig)
    (hc : c.client = some cl0) :
    ∃ cl, (c.applyClientDefaults).client = some cl ∧
      cl.masqueradeSets ≠ [] ∧
      (∀ s ∈ cl.frontedServers, s.qos ≠ 0 ∧ s.weight ≠ 0 ∧ s.redialAttempts ≠ 0) ∧
      List.Sorted (fun a b : FrontedServerInfo => stringLe a.host b.host) cl.frontedServers ∧
      (c.applyClientDefaults).autoReport.isSome = true ∧
      (c.applyClientDefaults).autoLaunch.isSome = true := by
  simp only [Config.applyClientDefaults, hc]
  refine ⟨_, rfl, ?_, ?_, ?_, ?_, ?_⟩
  · by_cases h : cl0.masqueradeSets.length = 0
    · simp [h]
    · simp only [if_neg h]
      exact fun he => h (by rw [he]; rfl)
  · intro s hs
    rw [show sortServers ((if cl0.masqueradeSets.length = 0 then
        { cl0 with masqueradeSets := [(cloudflare, cloudflareMasquerades)] }
      else cl0).frontedServers.map defaultFrontedServer)
        = List.insertionSort (fun a b : FrontedServerInfo => stringLe a.host b.host)
          ((if cl0.masqueradeSets.length = 0 then
            { cl0 with masqueradeSets := [(cloudflare, cloudflareMasquerades)] }
          else cl0).frontedServers.map defaultFrontedServer) from rfl,
      List.mem_insertionSort, List.mem_map] at hs
    obtain ⟨t, _, rfl⟩ := hs
    exact defaultFrontedServer_nonzero t
  · exact List.sorted_insertionSort _ _
  · cases h : c.autoReport <;> simp [h]
  · cases h : c.autoLaunch <;> simp [h]

theorem applyClientDefaults_frame (c : Config) :
    (c.applyClientDefaults).role = c.role ∧ (c.applyClientDefaults).addr = c.addr ∧
      (c.applyClientDefaults).uiAddr = c.uiAddr ∧
      (c.applyClientDefaults).cloudConfig = c.cloudConfig ∧
      (c.applyClientDefaults).instanceId = c.instanceId ∧
      (c.applyClientDefaults).stats = c.stats ∧
      (c.applyClientDefaults).proxiedSites = c.proxiedSites ∧
      (c.applyClientDefaults).trustedCAs = c.trustedCAs := by
  unfold Config.applyClientDefaults
  cases c.client <;> exact ⟨rfl, rfl, rfl, rfl, rfl, rfl, rfl, rfl⟩

def ClientDefaulted (c : Config) : Prop :=
  ∀ cl, c.client = some cl → c.role = "client" →
    cl.masqueradeSets ≠ [] ∧
    (∀ s ∈ cl.frontedServers, s.qos ≠ 0 ∧ s.weight ≠ 0 ∧ s.redialAttempts ≠ 0) ∧
    List.Sorted (fun a b : FrontedServerInfo => stringLe a.host b.host) cl.frontedServers ∧
    c.autoReport.isSome = true ∧ c.autoLaunch.isSome = true

def Defaulted (c : Config) : Prop :=
  c.role ≠ "" ∧ c.addr ≠ "" ∧ c.uiAddr ≠ "" ∧ c.cloudConfig ≠ "" ∧ c.instanceId ≠ "" ∧
    (∃ st, c.stats = some st ∧ st.statshubAddr ≠ "") ∧
    ClientDefaulted c ∧
    (∃ ps, c.proxiedSites = some ps ∧ ps.cloud ≠ []) ∧
    c.trustedCAs ≠ []

theorem defRoleStep_fixed (c : Config) (h : c.role ≠ "") : defRoleStep c = c := by
  unfold defRoleStep
  rw [if_neg h]

theorem defAddrStep_fixed (c : Config) (h : c.addr ≠ "") : defAddrStep c = c := by
  unfold defAddrStep
  rw [if_neg h]

theorem defUIAddrStep_fixed (c : Config) (h : c.uiAddr ≠ "") : defUIAddrStep c = c := by
  unfold defUIAddrStep
  rw [if_neg h]

theorem defCloudConfigStep_fixed (c : Config) (h : c.cloudConfig ≠ "") :
    defCloudConfigStep c = c := by
  unfold defCloudConfigStep
  rw [if_neg h]

theorem defInstanceIdStep_fixed (c : Config) (u : String) (h : c.instanceId ≠ "") :
    defInstanceIdStep u c = c := by
  unfold defInstanceIdStep
  rw [if_neg h]

theorem defStatsStep_fixed (c : Config) (st : StatsConfig) (h : c.stats = some st) :
    defStatsStep c = c := by
  unfold defStatsStep
  rw [h]
  rw [show (some st).getD { statshubAddr := "" } = st from rfl, ← h]

theorem defStatshubStep_fixed (c : Config) (st : StatsConfig) (h : c.stats = some st)
    (h2 : st.statshubAddr ≠ "") : defStatshubStep c = c := by
  unfold defStatshubStep
  simp only [h]
  rw [if_neg h2, ← h]

theorem defClientStep_fixed (c : Config) (hcd : ClientDefaulted c) : defClientStep c = c := by
  unfold defClientStep
  split_ifs with h
  · obtain ⟨hsome, hrole⟩ := h
    obtain ⟨cl0, hc⟩ := Option.isSome_iff_exists.mp hsome
    obtain ⟨hm, hfs, hsort, har, hal⟩ := hcd cl0 hc hrole
    exact applyClientDefaults_fixed c cl0 hc hm hfs hsort har hal
  · rfl

theorem defProxiedSitesStep_fixed (c : Config) (ps : ProxiedSitesConfig)
    (h : c.proxiedSites = some ps) : defProxiedSitesStep c = c := by
  unfold defProxiedSitesStep
  rw [h]
  rw [show (some ps).getD { delta := some { additions := [], deletions := [] }, cloud := [] }
    = ps from rfl, ← h]

theorem defPSCloudStep_fixed (c : Config) (ps : ProxiedSitesConfig)
    (h : c.proxiedSites = some ps) (h2 : ps.cloud ≠ []) : defPSCloudStep c = c := by
  unfold defPSCloudStep
  simp only [h]
  have hlen : ¬ ps.cloud.length = 0 := fun h0 => h2 (List.length_eq_zero.mp h0)
  rw [if_neg hlen, ← h]

theorem defTrustedCAsStep_fixed (c : Config) (h : c.trustedCAs ≠ []) :
    defTrustedCAsStep c = c := by
  unfold defTrustedCAsStep
  have hlen : ¬ c.trustedCAs.length = 0 := fun h0 => h (List.length_eq_zero.mp h0)
  rw [if_neg hlen]

theorem applyDefaults_of_defaulted (c : Config) (u : String) (h : Defaulted c) :
    c.ApplyDefaults u = c := by
  obtain ⟨h1, h2, h3, h4, h5, ⟨st, hst, hst2⟩, hcd, ⟨ps, hps, hps2⟩, hca⟩ := h
  unfold Config.ApplyDefaults
  rw [defRoleStep_fixed c h1, defAddrStep_fixed c h2, defUIAddrStep_fixed c h3,
    defCloudConfigStep_fixed c h4, defInstanceIdStep_fixed c u h5,
    defStatsStep_fixed c st hst, defStatshubStep_fixed c st hst hst2,
    defClientStep_fixed c hcd, defProxiedSitesStep_fixed c ps hps,
    defPSCloudStep_fixed c ps hps hps2, defTrustedCAsStep_fixed c hca]

def preClientSteps (u : String) (c : Config) : Config :=
  defStatshubStep (defStatsStep (defInstanceIdStep u
    (defCloudConfigStep (defUIAddrStep (defAddrStep (defRoleStep c))))))

theorem applyDefaults_decomp (c : Config) (u : String) :
    c.ApplyDefaults u = defTrustedCAsStep (defPSCloudStep (defProxiedSitesStep
      (defClientStep (preClientSteps u c)))) := by
  unfold Config.ApplyDefaults preClientSteps
  rfl

theorem postSteps_role (y : Config) :
    (defTrustedCAsStep (defPSCloudStep (defProxiedSitesStep y))).role = y.role := rfl

theorem postSteps_addr (y : Config) :
    (defTrustedCAsStep (defPSCloudStep (defProxiedSitesStep y))).addr = y.addr := rfl

theorem postSteps_uiAddr (y : Config) :
    (defTrustedCAsStep (defPSCloudStep (defProxiedSitesStep y))).uiAddr = y.uiAddr := rfl

theorem postSteps_cloudConfig (y : Config) :
    (defTrustedCAsStep (defPSCloudStep (defProxiedSitesStep y))).cloudConfig
      = y.cloudConfig := rfl

theorem postSteps_instanceId (y : Config) :
    (defTrustedCAsStep (defPSCloudStep (defProxiedSitesStep y))).instanceId
      = y.instanceId := rfl

theorem postSteps_stats (y : Config) :
    (defTrustedCAsStep (defPSCloudStep (defProxiedSitesStep y))).stats = y.stats := rfl

theorem postSteps_client (y : Config) :
    (defTrustedCAsStep (defPSCloudStep (defProxiedSitesStep y))).client = y.client := rfl

theorem postSteps_autoReport (y : Config) :
    (defTrustedCAsStep (defPSCloudStep (defProxiedSitesStep y))).autoReport
      = y.autoReport := rfl

theorem postSteps_autoLaunch (y : Config) :
    (defTrustedCAsStep (defPSCloudStep (defProxiedSitesStep y))).autoLaunch
      = y.autoLaunch := rfl

theorem preClientSteps_role (u : String) (c : Config) :
    (preClientSteps u c).role = if c.role = "" then "client" else c.role := rfl

theorem preClientSteps_addr (u : String) (c : Config) :
    (preClientSteps u c).addr = if c.addr = "" then "127.0.0.1:8787" else c.addr := rfl

theorem preClientSteps_uiAddr (u : String) (c : Config) :
    (preClientSteps u c).uiAddr = if c.uiAddr = "" then "127.0.0.1:16823" else c.uiAddr := rfl

theorem preClientSteps_cloudConfig (u : String) (c : Config) :
    (preClientSteps u c).cloudConfig
      = if c.cloudConfig = "" then defaultCloudConfigUrl else c.cloudConfig := rfl

theorem preClientSteps_instanceId (u : String) (c : Config) :
    (preClientSteps u c).instanceId
      = if c.instanceId = "" then u else c.instanceId := rfl

theorem defClientStep_role (c : Config) : (defClientStep c).role = c.role := by
  unfold defClientStep
  split_ifs with h
  · exact (applyClientDefaults_frame c).1
  · rfl

theorem defClientStep_addr (c : Config) : (defClientStep c).addr = c.addr := by
  unfold defClientStep
  split_ifs with h
  · exact (applyClientDefaults_frame c).2.1
  · rfl

theorem defClientStep_uiAddr (c : Config) : (defClientStep c).uiAddr = c.uiAddr := by
  unfold defClientStep
  split_ifs with h
  · exact (applyClientDefaults_frame c).2.2.1
  · rfl

theorem defClientStep_cloudConfig (c : Config) :
    (defClientStep c).cloudConfig = c.cloudConfig := by
  unfold defClientStep
  split_ifs with h
  · exact (applyClientDefaults_frame c).2.2.2.1
  · rfl

theorem defClientStep_instanceId (c : Config) :
    (defClientStep c).instanceId = c.instanceId := by
  unfold defClientStep
  split_ifs with h
  · exact (applyClientDefaults_frame c).2.2.2.2.1
  · rfl

theorem defClientStep_stats (c : Config) : (defClientStep c).stats = c.stats := by
  unfold defClientStep
  split_ifs with h
  · exact (applyClientDefaults_frame c).2.2.2.2.2.1
  · rfl

theorem statsSteps_spec (c : Config) :
    ∃ st, (defStatshubStep (defStatsStep c)).stats = some st ∧ st.statshubAddr ≠ "" := by
  unfold defStatsStep defStatshubStep
  refine ⟨_, rfl, ?_⟩
  split_ifs with h
  · show statshubAddrFlag ≠ ""
    decide
  · exact h

theorem psSteps_spec (c : Config) :
    ∃ ps, (defPSCloudStep (defProxiedSitesStep c)).proxiedSites = some ps ∧
      ps.cloud ≠ [] := by
  unfold defProxiedSitesStep defPSCloudStep
  refine ⟨_, rfl, ?_⟩
  split_ifs with h
  · show defaultProxiedSites ≠ []
    decide
  · exact fun he => h (by rw [he]; rfl)

theorem defTrustedCAsStep_nonempty (c : Config) : (defTrustedCAsStep c).trustedCAs ≠ [] := by
  unfold defTrustedCAsStep
  split_ifs with h
  · show defaultTrustedCAs ≠ []
    decide
  · exact fun he => h (by rw [he]; rfl)

theorem applyDefaults_defaulted (c : Config) (u : String) (hu : u ≠ "") :
    Defaulted (c.ApplyDefaults u) := by
  refine ⟨?_, ?_, ?_, ?_, ?_, ?_, ?_, ?_, ?_⟩
  · rw [applyDefaults_decomp, postSteps_role, defClientStep_role, preClientSteps_role]
    split_ifs with h
    · decide
    · exact h
  · rw [applyDefaults_decomp, postSteps_addr, defClientStep_addr, preClientSteps_addr]
    split_ifs with h
    · decide
    · exact h
  · rw [applyDefaults_decomp, postSteps_uiAddr, defClientStep_uiAddr, preClientSteps_uiAddr]
    split_ifs with h
    · decide
    · exact h
  · rw [applyDefaults_decomp, postSteps_cloudConfig, defClientStep_cloudConfig,
      preClientSteps_cloudConfig]
    split_ifs with h
    · decide
    · exact h
  · rw [applyDefaults_decomp, postSteps_instanceId, defClientStep_instanceId,
      preClientSteps_instanceId]
    split_ifs with h
    · exact hu
    · exact h
  · obtain ⟨st, hst, hst2⟩ := statsSteps_spec
      (defInstanceIdStep u (defCloudConfigStep (defUIAddrStep (defAddrStep (defRoleStep c)))))
    refine ⟨st, ?_, hst2⟩
    rw [applyDefaults_decomp, postSteps_stats, defClientStep_stats]
    exact hst
  · intro cl hcl hrolec
    rw [applyDefaults_decomp, postSteps_client] at hcl
    rw [applyDefaults_decomp, postSteps_role, defClientStep_role] at hrolec
    by_cases hcond : (preClientSteps u c).client.isSome ∧ (preClientSteps u c).role = "client"
    · have hd : defClientStep (preClientSteps u c)
          = (preClientSteps u c).applyClientDefaults := by
        unfold defClientStep
        rw [if_pos hcond]
      obtain ⟨cl0, hc0⟩ := Option.isSome_iff_exists.mp hcond.1
      obtain ⟨cl1, hcl1, hm, hfs, hsort, har, hal⟩ := applyClientDefaults_spec _ cl0 hc0
      rw [hd, hcl1] at hcl
      obtain rfl := Option.some.inj hcl
      refine ⟨hm, hfs, hsort, ?_, ?_⟩
      · rw [applyDefaults_decomp, postSteps_autoReport, hd]
        exact har
      · rw [applyDefaults_decomp, postSteps_autoLaunch, hd]
        exact hal
    · have hd : defClientStep (preClientSteps u c) = preClientSteps u c := by
        unfold defClientStep
        rw [if_neg hcond]
      exfalso
      apply hcond
      rw [hd] at hcl
      refine ⟨by rw [hcl]; rfl, hrolec⟩
  · rw [applyDefaults_decomp]
    exact psSteps_spec (defClientStep (preClientSteps u c))
  · rw [applyDefaults_decomp]
    exact defTrustedCAsStep_nonempty
      (defPSCloudStep (defProxiedSitesStep (defClientStep (preClientSteps u c))))

/-- C7: applying defaults is idempotent — applying them a second time (with
any second fresh UUID) is a no-op, because every defaulting branch is gated
on the target field being empty, zero or nil, and the first application
leaves every such field non-empty.  The only hypothesis is the `uuid.New()`
contract that a freshly generated UUID string is non-empty. -/
theorem applyDefaults_idempotent (cfg : Config) (u1 u2 : String) (h1 : u1 ≠ "") :
    (cfg.ApplyDefaults u1).ApplyDefaults u2 = cfg.ApplyDefaults u1 :=
  applyDefaults_of_defaulted _ u2 (applyDefaults_defaulted cfg u1 h1)

/-- Witness for C7 on a concrete configuration (client sub-configuration and
proxied-sites policy present, everything else empty) and two concrete fresh
UUIDs. -/
theorem applyDefaults_idempotent_witness :
    ("4aa3a7a2-8b8d-4a52-b1f6-0a37a1c0e6d4" : String) ≠ "" ∧
      (cfgClientAndPS.ApplyDefaults "4aa3a7a2-8b8d-4a52-b1f6-0a37a1c0e6d4").ApplyDefaults
          "0f1c2d3e-4b5a-6978-8796-a5b4c3d2e1f0"
        = cfgClientAndPS.ApplyDefaults "4aa3a7a2-8b8d-4a52-b1f6-0a37a1c0e6d4" :=
  ⟨by decide, applyDefaults_idempotent cfgClientAndPS
    "4aa3a7a2-8b8d-4a52-b1f6-0a37a1c0e6d4" "0f1c2d3e-4b5a-6978-8796-a5b4c3d2e1f0"
    (by decide)⟩
